import Mathlib

/-!
Shallow embedding of the ADMesh mesh-utility core (src/admesh/util.cpp):
the neighbor-consistency checker, the geometric transforms, the signed
volume computation, and the flag-driven repair orchestrator.

Floating-point values of the C code (`float`, `double`) are modelled as
exact rationals; machine arithmetic here consists of additions,
multiplications and divisions only, so the rational model matches the
code's arithmetic structure exactly (rounding noise is outside the model).
Functions of the repository that are not part of util.cpp (the external
repair collaborators, `stl_reverse_all_facets`, `stl_calculate_normal`,
`stl_normalize_vector`, Eigen's vector norm) are either abstract
parameters constrained only by their call sites, or are modelled from the
specification and marked as such in their doc comments.
-/

/-- A point or vector in 3-space (the C `stl_vertex` / `stl_normal`:
three floating values, modelled as rationals). -/
structure Vec where
  x : ℚ
  y : ℚ
  z : ℚ
deriving DecidableEq

instance : Add Vec := ⟨fun a b => ⟨a.x + b.x, a.y + b.y, a.z + b.z⟩⟩

instance : Sub Vec := ⟨fun a b => ⟨a.x - b.x, a.y - b.y, a.z - b.z⟩⟩

instance : Neg Vec := ⟨fun a => ⟨-a.x, -a.y, -a.z⟩⟩

/-- Componentwise product (Eigen `.array() *= s`). -/
def Vec.cmul (a b : Vec) : Vec := ⟨a.x * b.x, a.y * b.y, a.z * b.z⟩

/-- Dot product (Eigen `.dot`). -/
def Vec.dot (a b : Vec) : ℚ := a.x * b.x + a.y * b.y + a.z * b.z

/-- Cross product (Eigen `.cross`). -/
def Vec.cross (a b : Vec) : Vec :=
  ⟨a.y * b.z - a.z * b.y, a.z * b.x - a.x * b.z, a.x * b.y - a.y * b.x⟩

/-- Squared Euclidean norm. -/
def Vec.normSq (a : Vec) : ℚ := a.x * a.x + a.y * a.y + a.z * a.z

/-- Scalar multiple. -/
def Vec.smul (c : ℚ) (a : Vec) : Vec := ⟨c * a.x, c * a.y, c * a.z⟩

/-- Componentwise minimum (Eigen `.cwiseMin`). -/
def Vec.cwiseMin (a b : Vec) : Vec := ⟨min a.x b.x, min a.y b.y, min a.z b.z⟩

/-- Componentwise maximum (Eigen `.cwiseMax`). -/
def Vec.cwiseMax (a b : Vec) : Vec := ⟨max a.x b.x, max a.y b.y, max a.z b.z⟩

def Vec.zero : Vec := ⟨0, 0, 0⟩

@[simp] theorem Vec.add_def (a b : Vec) :
    a + b = ⟨a.x + b.x, a.y + b.y, a.z + b.z⟩ := rfl

@[simp] theorem Vec.sub_def (a b : Vec) :
    a - b = ⟨a.x - b.x, a.y - b.y, a.z - b.z⟩ := rfl

@[simp] theorem Vec.neg_def (a : Vec) : -a = ⟨-a.x, -a.y, -a.z⟩ := rfl

/-- A triangle facet: three vertices in winding order plus a stored normal
(the C `stl_facet`). -/
structure Facet where
  v0 : Vec
  v1 : Vec
  v2 : Vec
  normal : Vec
deriving DecidableEq

/-- Vertex access by index, reduced modulo 3 exactly as every C access
site writes `vertex[(j + k) % 3]`. -/
def Facet.vertex (f : Facet) (k : Nat) : Vec :=
  match k % 3 with
  | 0 => f.v0
  | 1 => f.v1
  | _ => f.v2

/-- Apply a function to all three vertices of a facet, leaving the stored
normal unchanged (the C loops `for (j = 0; j < 3; j++)` over `vertex[j]`). -/
def Facet.mapVertices (g : Vec → Vec) (f : Facet) : Facet :=
  ⟨g f.v0, g f.v1, g f.v2, f.normal⟩

def dFacet : Facet := ⟨Vec.zero, Vec.zero, Vec.zero, Vec.zero⟩

/-- One edge's entry of the neighbor table: the neighbor facet index
(`-1` when the edge has no neighbor) and the `which_vertex_not` offset. -/
structure NeighborEdge where
  nbr : Int
  vnot : Nat
deriving DecidableEq

/-- The per-facet neighbor record: one `NeighborEdge` per edge
(the C `stl_neighbors`). -/
structure NeighborTriple where
  e0 : NeighborEdge
  e1 : NeighborEdge
  e2 : NeighborEdge
deriving DecidableEq

def NeighborTriple.edge (t : NeighborTriple) (k : Nat) : NeighborEdge :=
  match k % 3 with
  | 0 => t.e0
  | 1 => t.e1
  | _ => t.e2

def dTriple : NeighborTriple := ⟨⟨-1, 0⟩, ⟨-1, 0⟩, ⟨-1, 0⟩⟩

/-- One mismatch report produced by `stl_verify_neighbors`: the C code
prints "edge j of facet i doesn't match edge (vnot+1) of facet neighbor"
and writes out both facets. -/
structure Report where
  edgeA : Nat
  facetA : Nat
  edgeB : Nat
  facetB : Int
deriving DecidableEq

/-- The statistics block of `stl_file` (`stl_stats`), restricted to the
fields read or written by util.cpp. -/
structure MeshStats where
  min : Vec
  max : Vec
  size : Vec
  bounding_diameter : ℚ
  shortest_edge : ℚ
  volume : ℚ
  number_of_facets : Nat
  backwards_edges : Nat
  connected_facets_1_edge : ℤ
  connected_facets_2_edge : ℤ
  connected_facets_3_edge : ℤ
  facets_w_1_bad_edge : ℤ
  facets_w_2_bad_edge : ℤ
  facets_w_3_bad_edge : ℤ
  edges_fixed : ℤ
  facets_reversed : ℤ
deriving DecidableEq

/-- The mesh (`stl_file`): the facet array, the parallel neighbor table,
the statistics block, and the sticky error flag. -/
structure Mesh where
  facets : List Facet
  neighbors : List NeighborTriple
  stats : MeshStats
  error : Bool
deriving DecidableEq

/-- Apply `g` to the first `n` elements of a list, modelling a C loop
`for (i = 0; i < n; i++)` that mutates `l[i]` in place. -/
def mapFirst (g : α → α) : Nat → List α → List α
  | _, [] => []
  | 0, l => l
  | n + 1, a :: l => g a :: mapFirst g n l

theorem mapFirst_zero (g : α → α) (l : List α) : mapFirst g 0 l = l := by
  cases l <;> rfl

theorem mapFirst_comp (g h : α → α) (n : Nat) (l : List α) :
    mapFirst g n (mapFirst h n l) = mapFirst (fun a => g (h a)) n l := by
  induction l generalizing n with
  | nil => simp [mapFirst]
  | cons a t ih =>
    cases n with
    | zero => rfl
    | succ n => simp [mapFirst, ih]

theorem mapFirst_eq_self (g : α → α) (hg : ∀ a, g a = a) (n : Nat) (l : List α) :
    mapFirst g n l = l := by
  induction l generalizing n with
  | nil => simp [mapFirst]
  | cons a t ih =>
    cases n with
    | zero => rfl
    | succ n => simp [mapFirst, hg, ih]

theorem mapFirst_getD (g : α → α) (n : Nat) (l : List α) (i : Nat) (d : α)
    (hi : i < n) (hl : i < l.length) :
    (mapFirst g n l).getD i d = g (l.getD i d) := by
  induction l generalizing n i with
  | nil => simp at hl
  | cons a t ih =>
    cases n with
    | zero => omega
    | succ n =>
      cases i with
      | zero => rfl
      | succ i =>
        simp only [mapFirst, List.getD_cons_succ]
        exact ih n i (by omega) (by simpa using hl)

/-- Structurally recursive auxiliary for the integer square root: the
largest `k ≤ bound` with `k * k ≤ n`. -/
def natSqrtBelow : Nat → Nat → Nat
  | 0, _ => 0
  | k + 1, n => if (k + 1) * (k + 1) ≤ n then k + 1 else natSqrtBelow k n

/-- Integer square root (floor), kernel-reducible. -/
def natSqrt (n : Nat) : Nat := natSqrtBelow n n

/-- Rational square root, exact on rationals whose numerator and
denominator are perfect squares (the inputs all claims are evaluated on). -/
def ratSqrt (q : ℚ) : ℚ := (natSqrt q.num.toNat : ℚ) / (natSqrt q.den : ℚ)

/-- Modelled from the spec: `stl_calculate_normal` is declared in stl.h
outside src/; the spec describes the recomputed facet normal as the
"cross product of two edge vectors" of the triangle. -/
def stl_calculate_normal (f : Facet) : Vec :=
  Vec.cross (f.v1 - f.v0) (f.v2 - f.v0)

/-- Modelled from the spec: `stl_normalize_vector` is declared outside
src/; the spec describes it as re-normalizing a vector to unit length
(the zero vector is left at zero). Exact whenever the squared norm is a
perfect-square rational. -/
def stl_normalize_vector (v : Vec) : Vec :=
  if v.normSq = 0 then Vec.zero else Vec.smul (1 / ratSqrt v.normSq) v

/-- Modelled from the spec: `stl_reverse_all_facets` is defined outside
src/; the spec says it "unconditionally reverses every facet's winding
and normal" (section 4.4 stage 5), that reversing twice restores the
original vertex order and normals exactly (section 8), and that it
advances the facets-reversed statistic by the facet count (section 4.3:
the mirror operations decrement that statistic by the facet count
"immediately after" calling it, to leave stats unaltered). -/
def stl_reverse_all_facets (m : Mesh) : Mesh :=
  { m with
    facets := mapFirst (fun f => ⟨f.v1, f.v0, f.v2, -f.normal⟩)
      m.stats.number_of_facets m.facets,
    stats := { m.stats with
      facets_reversed :=
        m.stats.facets_reversed + (m.stats.number_of_facets : ℤ) } }

/-- The body of the doubly nested loop of `stl_verify_neighbors` for facet
`i`, edge `j`: returns the backwards-edge increment contributed by this
pair and the mismatch report it prints, if any.  Transcribed from
util.cpp lines 50-71. -/
def pairCheck (m : Mesh) (i j : Nat) : Nat × List Report :=
  let f := m.facets.getD i dFacet
  let a1 := f.vertex j
  let a2 := f.vertex ((j + 1) % 3)
  let e := (m.neighbors.getD i dTriple).edge j
  if e.nbr = -1 then (0, [])
  else
    let nf := m.facets.getD e.nbr.toNat dFacet
    if e.vnot < 3 then
      let b1 := nf.vertex ((e.vnot + 2) % 3)
      let b2 := nf.vertex ((e.vnot + 1) % 3)
      if a1 ≠ b1 ∨ a2 ≠ b2 then (0, [⟨j, i, e.vnot + 1, e.nbr⟩]) else (0, [])
    else
      let b1 := nf.vertex ((e.vnot + 1) % 3)
      let b2 := nf.vertex ((e.vnot + 2) % 3)
      if a1 ≠ b1 ∨ a2 ≠ b2 then (1, [⟨j, i, e.vnot + 1, e.nbr⟩]) else (1, [])

/-- Total number of backwards-edge increments of the verify loop. -/
def verifyBackwards (m : Mesh) : Nat :=
  ((List.range m.stats.number_of_facets).map (fun i =>
    ((List.range 3).map (fun j => (pairCheck m i j).1)).sum)).sum

/-- All mismatch reports of the verify loop, in loop order. -/
def verifyReports (m : Mesh) : List Report :=
  (List.range m.stats.number_of_facets).flatMap (fun i =>
    (List.range 3).flatMap (fun j => (pairCheck m i j).2))

/-- `stl_verify_neighbors` (util.cpp lines 35-74): a no-op on an
error-flagged mesh; otherwise resets the backwards-edge counter, scans
every facet's three edges, counts the entries whose offset is `>= 3`,
and reports every edge that fails its direction-dependent comparison.
The mesh result carries the updated counter; the report list stands for
the diagnostics the C code prints. -/
def stl_verify_neighbors (m : Mesh) : Mesh × List Report :=
  if m.error then (m, [])
  else
    ({ m with stats := { m.stats with backwards_edges := verifyBackwards m } },
     verifyReports m)

/-- A facet/edge pair is clean when its entry is a boundary (`-1`) or is
a forward-offset-free entry whose reversed-direction comparison succeeds:
`stl_verify_neighbors` neither counts nor reports it. -/
def cleanPair (m : Mesh) (i j : Nat) : Prop :=
  (((m.neighbors.getD i dTriple).edge j).nbr = -1) ∨
    (((m.neighbors.getD i dTriple).edge j).vnot < 3 ∧
      (m.facets.getD i dFacet).vertex j =
        (m.facets.getD ((m.neighbors.getD i dTriple).edge j).nbr.toNat dFacet).vertex
          ((((m.neighbors.getD i dTriple).edge j).vnot + 2) % 3) ∧
      (m.facets.getD i dFacet).vertex ((j + 1) % 3) =
        (m.facets.getD ((m.neighbors.getD i dTriple).edge j).nbr.toNat dFacet).vertex
          ((((m.neighbors.getD i dTriple).edge j).vnot + 1) % 3))

instance (m : Mesh) (i j : Nat) : Decidable (cleanPair m i j) := by
  unfold cleanPair; infer_instance

/-- A facet/edge pair whose neighbor entry was corrupted to the forward
orientation: the offset carries the `>= 3` forward sentinel while the
underlying geometry still matches in the expected reversed direction, on
a non-degenerate shared edge. -/
def corruptedPair (m : Mesh) (i j : Nat) : Prop :=
  (((m.neighbors.getD i dTriple).edge j).nbr ≠ -1) ∧
    3 ≤ ((m.neighbors.getD i dTriple).edge j).vnot ∧
    (m.facets.getD i dFacet).vertex j =
      (m.facets.getD ((m.neighbors.getD i dTriple).edge j).nbr.toNat dFacet).vertex
        ((((m.neighbors.getD i dTriple).edge j).vnot + 2) % 3) ∧
    (m.facets.getD i dFacet).vertex ((j + 1) % 3) =
      (m.facets.getD ((m.neighbors.getD i dTriple).edge j).nbr.toNat dFacet).vertex
        ((((m.neighbors.getD i dTriple).edge j).vnot + 1) % 3) ∧
    (m.facets.getD i dFacet).vertex j ≠ (m.facets.getD i dFacet).vertex ((j + 1) % 3)

instance (m : Mesh) (i j : Nat) : Decidable (corruptedPair m i j) := by
  unfold corruptedPair; infer_instance

/-- `stl_translate` (util.cpp lines 76-89): shift every vertex so the
bounding minimum lands on `(x, y, z)`; update `min`/`max` in O(1).  The
shared-vertex cache the C code invalidates lives outside this core's
data model. -/
def stl_translate (x y z : ℚ) (m : Mesh) : Mesh :=
  if m.error then m
  else
    let new_min : Vec := ⟨x, y, z⟩
    let shift := new_min - m.stats.min
    { m with
      facets := mapFirst (Facet.mapVertices (· + shift))
        m.stats.number_of_facets m.facets,
      stats := { m.stats with min := new_min, max := m.stats.max + shift } }

/-- `stl_translate_relative` (util.cpp lines 92-104). -/
def stl_translate_relative (x y z : ℚ) (m : Mesh) : Mesh :=
  if m.error then m
  else
    let shift : Vec := ⟨x, y, z⟩
    { m with
      facets := mapFirst (Facet.mapVertices (· + shift))
        m.stats.number_of_facets m.facets,
      stats := { m.stats with
        min := m.stats.min + shift, max := m.stats.max + shift } }

/-- `stl_scale_versor` (util.cpp lines 106-125): componentwise scale of
extents, size, vertices; the stored volume is multiplied by the product
of the factors only when it is positive. -/
def stl_scale_versor (versor : Vec) (m : Mesh) : Mesh :=
  if m.error then m
  else
    { m with
      facets := mapFirst (Facet.mapVertices (fun v => Vec.cmul v versor))
        m.stats.number_of_facets m.facets,
      stats := { m.stats with
        min := Vec.cmul m.stats.min versor,
        max := Vec.cmul m.stats.max versor,
        size := Vec.cmul m.stats.size versor,
        volume :=
          if 0 < m.stats.volume then
            m.stats.volume * (versor.x * versor.y * versor.z)
          else m.stats.volume } }

/-- `calculate_normals` (util.cpp lines 127-138): recompute every facet's
normal from its vertices and normalize it. -/
def calculate_normals (m : Mesh) : Mesh :=
  if m.error then m
  else
    { m with
      facets := mapFirst
        (fun f => { f with normal := stl_normalize_vector (stl_calculate_normal f) })
        m.stats.number_of_facets m.facets }

/-- `stl_get_size` (util.cpp lines 269-284): returns untouched when the
error flag is set or the facet count is zero; otherwise rescans every
vertex for the bounding extrema and refreshes size and bounding diameter.
`norm` stands for Eigen's `.norm()` (outside src/). -/
def stl_get_size (norm : Vec → ℚ) (m : Mesh) : Mesh :=
  if m.error = true ∨ m.stats.number_of_facets = 0 then m
  else
    let first := (m.facets.getD 0 dFacet).vertex 0
    let mm := (List.range m.stats.number_of_facets).foldl
      (fun (acc : Vec × Vec) i =>
        let f := m.facets.getD i dFacet
        (((acc.1.cwiseMin f.v0).cwiseMin f.v1).cwiseMin f.v2,
         ((acc.2.cwiseMax f.v0).cwiseMax f.v1).cwiseMax f.v2))
      (first, first)
    { m with stats := { m.stats with
        min := mm.1, max := mm.2,
        size := mm.2 - mm.1,
        bounding_diameter := norm (mm.2 - mm.1) } }

/-- Application of a row-major 3x4 affine matrix to a vertex, transcribed
from util.cpp lines 149-151. -/
def applyTrafo34 (t : Fin 12 → ℚ) (v : Vec) : Vec :=
  ⟨t 0 * v.x + t 1 * v.y + t 2 * v.z + t 3,
   t 4 * v.x + t 5 * v.y + t 6 * v.z + t 7,
   t 8 * v.x + t 9 * v.y + t 10 * v.z + t 11⟩

/-- `stl_transform(stl_file*, float*)` (util.cpp lines 140-156): apply the
3x4 matrix to every vertex, then rescan the bounding box and recompute
the normals.  `norm` stands for Eigen's `.norm()`, which lives outside
src/. -/
def stl_transform34 (norm : Vec → ℚ) (t : Fin 12 → ℚ) (m : Mesh) : Mesh :=
  if m.error then m
  else
    calculate_normals (stl_get_size norm
      { m with
        facets := mapFirst (Facet.mapVertices (applyTrafo34 t))
          m.stats.number_of_facets m.facets })

/-- `stl_transform(stl_file*, Eigen::Transform)` (util.cpp lines 158-197):
returns immediately when the vertex count `3 * number_of_facets` is zero;
otherwise applies the affine map to every vertex as one batch, then
rescans the bounding box and recomputes normals. -/
def stl_transform_affine (norm : Vec → ℚ) (t : Fin 12 → ℚ) (m : Mesh) : Mesh :=
  if m.error then m
  else if 3 * m.stats.number_of_facets = 0 then m
  else
    calculate_normals (stl_get_size norm
      { m with
        facets := mapFirst (Facet.mapVertices (applyTrafo34 t))
          m.stats.number_of_facets m.facets })

/-- The static helper `stl_rotate` (util.cpp lines 261-267): a 2D rotation
of a coordinate pair by precomputed cosine and sine. -/
def stl_rotate (c s : ℚ) (p : ℚ × ℚ) : ℚ × ℚ :=
  (c * p.1 - s * p.2, s * p.1 + c * p.2)

/-- `stl_rotate_x` (util.cpp lines 199-217), with the cosine and sine of
the angle passed in: the C code obtains them from libm, which is outside
src/; every claim about rotations holds for arbitrary `c`, `s`. -/
def stl_rotate_x (norm : Vec → ℚ) (c s : ℚ) (m : Mesh) : Mesh :=
  if m.error then m
  else
    calculate_normals (stl_get_size norm
      { m with
        facets := mapFirst
          (Facet.mapVertices (fun v =>
            let p := stl_rotate c s (v.y, v.z)
            ⟨v.x, p.1, p.2⟩))
          m.stats.number_of_facets m.facets })

/-- `stl_rotate_y` (util.cpp lines 219-237): rotates the (z, x) pair. -/
def stl_rotate_y (norm : Vec → ℚ) (c s : ℚ) (m : Mesh) : Mesh :=
  if m.error then m
  else
    calculate_normals (stl_get_size norm
      { m with
        facets := mapFirst
          (Facet.mapVertices (fun v =>
            let p := stl_rotate c s (v.z, v.x)
            ⟨p.2, v.y, p.1⟩))
          m.stats.number_of_facets m.facets })

/-- `stl_rotate_z` (util.cpp lines 239-257): rotates the (x, y) pair. -/
def stl_rotate_z (norm : Vec → ℚ) (c s : ℚ) (m : Mesh) : Mesh :=
  if m.error then m
  else
    calculate_normals (stl_get_size norm
      { m with
        facets := mapFirst
          (Facet.mapVertices (fun v =>
            let p := stl_rotate c s (v.x, v.y)
            ⟨p.1, p.2, v.z⟩))
          m.stats.number_of_facets m.facets })

/-- `stl_mirror_xy` (util.cpp lines 286-303): negate every vertex's z,
reflect the z extrema, reverse every facet, then pull the facets-reversed
statistic back down by the facet count "for not altering stats". -/
def stl_mirror_xy (m : Mesh) : Mesh :=
  if m.error then m
  else
    let m1 := { m with
      facets := mapFirst (Facet.mapVertices (fun v => { v with z := -v.z }))
        m.stats.number_of_facets m.facets,
      stats := { m.stats with
        min := { m.stats.min with z := -m.stats.max.z },
        max := { m.stats.max with z := -m.stats.min.z } } }
    let m2 := stl_reverse_all_facets m1
    { m2 with stats := { m2.stats with
        facets_reversed :=
          m2.stats.facets_reversed - (m2.stats.number_of_facets : ℤ) } }

/-- `stl_mirror_yz` (util.cpp lines 305-321): the same across x. -/
def stl_mirror_yz (m : Mesh) : Mesh :=
  if m.error then m
  else
    let m1 := { m with
      facets := mapFirst (Facet.mapVertices (fun v => { v with x := -v.x }))
        m.stats.number_of_facets m.facets,
      stats := { m.stats with
        min := { m.stats.min with x := -m.stats.max.x },
        max := { m.stats.max with x := -m.stats.min.x } } }
    let m2 := stl_reverse_all_facets m1
    { m2 with stats := { m2.stats with
        facets_reversed :=
          m2.stats.facets_reversed - (m2.stats.number_of_facets : ℤ) } }

/-- `stl_mirror_xz` (util.cpp lines 323-340): the same across y. -/
def stl_mirror_xz (m : Mesh) : Mesh :=
  if m.error then m
  else
    let m1 := { m with
      facets := mapFirst (Facet.mapVertices (fun v => { v with y := -v.y }))
        m.stats.number_of_facets m.facets,
      stats := { m.stats with
        min := { m.stats.min with y := -m.stats.max.y },
        max := { m.stats.max with y := -m.stats.min.y } } }
    let m2 := stl_reverse_all_facets m1
    { m2 with stats := { m2.stats with
        facets_reversed :=
          m2.stats.facets_reversed - (m2.stats.number_of_facets : ℤ) } }

/-- `get_area` (util.cpp lines 369-395), transcribed with the loop over
`i` unrolled into the component formulas the C code writes: the three
cross products of consecutive vertex positions are summed, then dotted
with the normal recomputed from the facet's vertices and normalized, and
halved.  The C code casts to double before multiplying; the rational
model is exact, so the casts are identities. -/
def get_area (f : Facet) : ℚ :=
  let crossAt : Nat → Vec := fun i =>
    ⟨(f.vertex i).y * (f.vertex ((i + 1) % 3)).z
       - (f.vertex i).z * (f.vertex ((i + 1) % 3)).y,
     (f.vertex i).z * (f.vertex ((i + 1) % 3)).x
       - (f.vertex i).x * (f.vertex ((i + 1) % 3)).z,
     (f.vertex i).x * (f.vertex ((i + 1) % 3)).y
       - (f.vertex i).y * (f.vertex ((i + 1) % 3)).x⟩
  let total : Vec :=
    ⟨(crossAt 0).x + (crossAt 1).x + (crossAt 2).x,
     (crossAt 0).y + (crossAt 1).y + (crossAt 2).y,
     (crossAt 0).z + (crossAt 1).z + (crossAt 2).z⟩
  let n := stl_normalize_vector (stl_calculate_normal f)
  (1 / 2) * Vec.dot n total

/-- `get_volume` (util.cpp lines 342-357): 0 on an error-flagged mesh;
otherwise sums `area * height / 3` against the first vertex of the first
facet as reference point. -/
def get_volume (m : Mesh) : ℚ :=
  if m.error then 0
  else
    let p0 := (m.facets.getD 0 dFacet).vertex 0
    ((List.range m.stats.number_of_facets).map (fun i =>
      let f := m.facets.getD i dFacet
      let height := Vec.dot f.normal (f.vertex 0 - p0)
      let area := get_area f
      area * height / 3)).sum

/-- `stl_calculate_volume` (util.cpp lines 359-367): store the signed
volume; when it is negative, reverse every facet and negate it. -/
def stl_calculate_volume (m : Mesh) : Mesh :=
  if m.error then m
  else
    let vol := get_volume m
    let m1 := { m with stats := { m.stats with volume := vol } }
    if vol < 0 then
      let m2 := stl_reverse_all_facets m1
      { m2 with stats := { m2.stats with volume := -vol } }
    else m1

/-- The specification's formula for `area(facet)` as the spec words it:
half the dot product of the facet's own stored normal, re-normalized to
unit length, with the sum of the three cross products of the triangle's
consecutive directed edges (each directed edge being the ordered pair of
vertex positions `(v_i, v_{(i+1) mod 3})`, per the spec glossary). -/
def areaSpecStoredNormal (f : Facet) : ℚ :=
  (1 / 2) * Vec.dot (stl_normalize_vector f.normal)
    (Vec.cross (f.vertex 0) (f.vertex 1) + Vec.cross (f.vertex 1) (f.vertex 2)
      + Vec.cross (f.vertex 2) (f.vertex 0))

/-- The same formula with the normal the code actually uses: the normal
recomputed from the facet's vertices, re-normalized to unit length. -/
def areaSpecRecomputedNormal (f : Facet) : ℚ :=
  (1 / 2) * Vec.dot (stl_normalize_vector (stl_calculate_normal f))
    (Vec.cross (f.vertex 0) (f.vertex 1) + Vec.cross (f.vertex 1) (f.vertex 2)
      + Vec.cross (f.vertex 2) (f.vertex 0))

/-- The external repair collaborators invoked by `stl_repair`; their
implementations live outside src/ (section 6 of the spec), so the
orchestrator is modelled parametrically in them. -/
structure Collabs where
  check_facets_exact : Mesh → Mesh
  check_facets_nearby : ℚ → Mesh → Mesh
  remove_unconnected_facets : Mesh → Mesh
  fill_holes : Mesh → Mesh
  fix_normal_directions : Mesh → Mesh
  fix_normal_values : Mesh → Mesh

/-- The repair stages, in the orchestrator's fixed order.  An occurrence
in the result trace records that the stage's guarding branch was taken. -/
inductive Stage where
  | exact
  | nearby
  | remove_unconnected
  | fill_holes
  | reverse
  | normal_directions
  | normal_values
  | volume
  | verify
deriving DecidableEq

/-- Result of a repair run: the final mesh, the trace of entered stages,
the tolerances passed to the nearby-stitch collaborator (one per
invocation, in order), and the final verification's mismatch reports. -/
structure RepairResult where
  mesh : Mesh
  stages : List Stage
  nearbyTolerances : List ℚ
  reports : List Report
deriving DecidableEq

/-- Stage 1 of `stl_repair` (util.cpp lines 420-432): run the exact-match
collaborator, then derive the bad-edge statistics. -/
def repairExactStage (C : Collabs) (m : Mesh) : Mesh :=
  let m1 := C.check_facets_exact m
  { m1 with stats := { m1.stats with
      facets_w_1_bad_edge :=
        m1.stats.connected_facets_2_edge - m1.stats.connected_facets_3_edge,
      facets_w_2_bad_edge :=
        m1.stats.connected_facets_1_edge - m1.stats.connected_facets_2_edge,
      facets_w_3_bad_edge :=
        (m1.stats.number_of_facets : ℤ) - m1.stats.connected_facets_1_edge } }

/-- The nearby-tolerance loop of `stl_repair` (util.cpp lines 444-463):
up to the given number of rounds, re-check connectivity, invoke the
stitch collaborator at the current tolerance and advance the tolerance by
the increment; break as soon as every facet has three connected edges.
Returns the final mesh and the tolerances actually passed to the
collaborator. -/
def nearbyLoop (C : Collabs) (inc : ℚ) : Nat → ℚ → Mesh → Mesh × List ℚ
  | 0, _, m => (m, [])
  | k + 1, tol, m =>
    if m.stats.connected_facets_3_edge < (m.stats.number_of_facets : ℤ) then
      let m2 := C.check_facets_nearby tol m
      let r := nearbyLoop C inc k (tol + inc) m2
      (r.1, tol :: r.2)
    else (m, [])

/-- The mesh states the nearby loop steps through when it never breaks:
state `k + 1` is the stitch collaborator applied to state `k` at
tolerance `tol + k * inc`. -/
def stitchIter (C : Collabs) (inc tol : ℚ) (m : Mesh) : Nat → Mesh
  | 0 => m
  | k + 1 => C.check_facets_nearby (tol + (k : ℚ) * inc) (stitchIter C inc tol m k)

/-- `stl_repair` (util.cpp lines 397-518): the flag-driven orchestrator.
Transcribed stage by stage; the verbose printing is dropped (outside the
core contract), and each taken stage branch is recorded in the trace. -/
def stl_repair (C : Collabs)
    (fixall_flag exact_flag tolerance_flag : Bool) (tolerance : ℚ)
    (increment_flag : Bool) (increment : ℚ)
    (nearby_flag : Bool) (iterations : Nat)
    (remove_unconnected_flag fill_holes_flag : Bool)
    (normal_directions_flag normal_values_flag reverse_all_flag : Bool)
    (m : Mesh) : RepairResult :=
  if m.error then ⟨m, [], [], []⟩
  else
    let stage1 := exact_flag || fixall_flag || nearby_flag
      || remove_unconnected_flag || fill_holes_flag || normal_directions_flag
    let m1 := if stage1 then repairExactStage C m else m
    let exact2 := if stage1 then true else exact_flag
    let stage2 := nearby_flag || fixall_flag
    let tol0 := if tolerance_flag then tolerance else m1.stats.shortest_edge
    let inc0 := if increment_flag then increment
      else m1.stats.bounding_diameter / 10000
    let r2 := if stage2 then
        (if m1.stats.connected_facets_3_edge < (m1.stats.number_of_facets : ℤ)
          then nearbyLoop C inc0 iterations tol0 m1
          else (m1, []))
      else (m1, [])
    let m2 := r2.1
    let stage3 := remove_unconnected_flag || fixall_flag || fill_holes_flag
    let m3 := if stage3 then
        (if m2.stats.connected_facets_3_edge < (m2.stats.number_of_facets : ℤ)
          then C.remove_unconnected_facets m2
          else m2)
      else m2
    let stage4 := fill_holes_flag || fixall_flag
    let m4 := if stage4 then
        (if m3.stats.connected_facets_3_edge < (m3.stats.number_of_facets : ℤ)
          then C.fill_holes m3
          else m3)
      else m3
    let m5 := if reverse_all_flag then stl_reverse_all_facets m4 else m4
    let stage6 := normal_directions_flag || fixall_flag
    let m6 := if stage6 then C.fix_normal_directions m5 else m5
    let stage7 := normal_values_flag || fixall_flag
    let m7 := if stage7 then C.fix_normal_values m6 else m6
    let m8 := stl_calculate_volume m7
    let r9 := if exact2 then stl_verify_neighbors m8 else (m8, [])
    let trace :=
      (if stage1 then [Stage.exact] else [])
        ++ (if stage2 then [Stage.nearby] else [])
        ++ (if stage3 then [Stage.remove_unconnected] else [])
        ++ (if stage4 then [Stage.fill_holes] else [])
        ++ (if reverse_all_flag then [Stage.reverse] else [])
        ++ (if stage6 then [Stage.normal_directions] else [])
        ++ (if stage7 then [Stage.normal_values] else [])
        ++ [Stage.volume]
        ++ (if exact2 then [Stage.verify] else [])
    ⟨r9.1, trace, r2.2, r9.2⟩

/-- A statistics block with every field zeroed, for concrete witnesses. -/
def emptyStats : MeshStats :=
  ⟨Vec.zero, Vec.zero, Vec.zero, 0, 0, 0, 0, 0, 0, 0, 0, 0, 0, 0, 0, 0⟩

/-- A mesh whose sticky error flag is set. -/
def errMesh : Mesh := ⟨[], [], emptyStats, true⟩

/-- An empty, error-free mesh. -/
def okEmptyMesh : Mesh := ⟨[], [], emptyStats, false⟩

/-- Collaborators that leave the mesh unchanged, for concrete witnesses. -/
def idCollabs : Collabs := ⟨id, fun _ m => m, id, id, id, id⟩

/-- C2: on a mesh whose sticky error flag is set, every operation of the
core — the verifier, every geometric transform, the bounding-box rescan,
the normal recomputation, the volume computation, and the full repair
orchestrator under any flag combination and any collaborators — returns
the mesh unchanged (and produces no reports, no stage entries and no
stitch invocations). -/
theorem c2_error_flag_makes_everything_noop (m : Mesh) (herr : m.error = true)
    (x y z c s : ℚ) (v : Vec) (norm : Vec → ℚ) (t : Fin 12 → ℚ) (C : Collabs)
    (b1 b2 b3 : Bool) (tol : ℚ) (b4 : Bool) (inc : ℚ) (b5 : Bool) (iter : Nat)
    (b6 b7 b8 b9 b10 : Bool) :
    stl_verify_neighbors m = (m, []) ∧
    stl_translate x y z m = m ∧
    stl_translate_relative x y z m = m ∧
    stl_scale_versor v m = m ∧
    stl_transform34 norm t m = m ∧
    stl_transform_affine norm t m = m ∧
    stl_rotate_x norm c s m = m ∧
    stl_rotate_y norm c s m = m ∧
    stl_rotate_z norm c s m = m ∧
    stl_get_size norm m = m ∧
    stl_mirror_xy m = m ∧
    stl_mirror_yz m = m ∧
    stl_mirror_xz m = m ∧
    calculate_normals m = m ∧
    stl_calculate_volume m = m ∧
    stl_repair C b1 b2 b3 tol b4 inc b5 iter b6 b7 b8 b9 b10 m = ⟨m, [], [], []⟩ := by
  refine ⟨?_, ?_, ?_, ?_, ?_, ?_, ?_, ?_, ?_, ?_, ?_, ?_, ?_, ?_, ?_, ?_⟩
  · simp [stl_verify_neighbors, herr]
  · simp [stl_translate, herr]
  · simp [stl_translate_relative, herr]
  · simp [stl_scale_versor, herr]
  · simp [stl_transform34, herr]
  · simp [stl_transform_affine, herr]
  · simp [stl_rotate_x, herr]
  · simp [stl_rotate_y, herr]
  · simp [stl_rotate_z, herr]
  · simp [stl_get_size, herr]
  · simp [stl_mirror_xy, herr]
  · simp [stl_mirror_yz, herr]
  · simp [stl_mirror_xz, herr]
  · simp [calculate_normals, herr]
  · simp [stl_calculate_volume, herr]
  · simp [stl_repair, herr]

/-- C2 witness: the no-op theorem applied to a concrete error-flagged
mesh with concrete arguments everywhere. -/
theorem c2_witness :
    errMesh.error = true ∧
    (stl_verify_neighbors errMesh = (errMesh, []) ∧
      stl_translate 1 2 3 errMesh = errMesh ∧
      stl_translate_relative 1 2 3 errMesh = errMesh ∧
      stl_scale_versor ⟨2, 2, 2⟩ errMesh = errMesh ∧
      stl_transform34 (fun _ => 0) (fun _ => 1) errMesh = errMesh ∧
      stl_transform_affine (fun _ => 0) (fun _ => 1) errMesh = errMesh ∧
      stl_rotate_x (fun _ => 0) 0 1 errMesh = errMesh ∧
      stl_rotate_y (fun _ => 0) 0 1 errMesh = errMesh ∧
      stl_rotate_z (fun _ => 0) 0 1 errMesh = errMesh ∧
      stl_get_size (fun _ => 0) errMesh = errMesh ∧
      stl_mirror_xy errMesh = errMesh ∧
      stl_mirror_yz errMesh = errMesh ∧
      stl_mirror_xz errMesh = errMesh ∧
      calculate_normals errMesh = errMesh ∧
      stl_calculate_volume errMesh = errMesh ∧
      stl_repair idCollabs true true true 1 true 1 true 5 true true true true true
        errMesh = ⟨errMesh, [], [], []⟩) :=
  ⟨rfl, c2_error_flag_makes_everything_noop errMesh rfl 1 2 3 0 1 ⟨2, 2, 2⟩
    (fun _ => 0) (fun _ => 1) idCollabs true true true 1 true 1 true 5
    true true true true true⟩

/-- C3: `get_volume` returns 0 when the mesh's error flag is set or when
the mesh has zero facets. -/
theorem c3_volume_zero_on_error_or_empty (m : Mesh)
    (h : m.error = true ∨ m.stats.number_of_facets = 0) : get_volume m = 0 := by
  rcases h with h | h
  · simp [get_volume, h]
  · by_cases he : m.error
    · simp [get_volume, he]
    · simp [get_volume, he, h]

/-- C3 witness: evaluated on a concrete error-flagged mesh and on a
concrete empty mesh. -/
theorem c3_witness :
    (errMesh.error = true ∨ errMesh.stats.number_of_facets = 0) ∧
      get_volume errMesh = 0 ∧
      (okEmptyMesh.error = true ∨ okEmptyMesh.stats.number_of_facets = 0) ∧
      get_volume okEmptyMesh = 0 :=
  ⟨Or.inl rfl, c3_volume_zero_on_error_or_empty errMesh (Or.inl rfl),
   Or.inr rfl, c3_volume_zero_on_error_or_empty okEmptyMesh (Or.inr rfl)⟩

/-- C9: on an error-free mesh with zero facets, the bounding-box rescan
returns without touching anything, and so do the rotations and both
general transforms that invoke it — min, max, size, and bounding
diameter keep their previous values. -/
theorem c9_empty_mesh_keeps_stale_bounds (norm : Vec → ℚ) (c s : ℚ)
    (t : Fin 12 → ℚ) (m : Mesh) (herr : m.error = false)
    (hN : m.stats.number_of_facets = 0) :
    stl_get_size norm m = m ∧
    stl_rotate_x norm c s m = m ∧
    stl_rotate_y norm c s m = m ∧
    stl_rotate_z norm c s m = m ∧
    stl_transform34 norm t m = m ∧
    stl_transform_affine norm t m = m := by
  obtain ⟨fac, nb, st, err⟩ := m
  simp only at herr hN
  subst herr
  refine ⟨?_, ?_, ?_, ?_, ?_, ?_⟩
  · simp [stl_get_size, hN]
  · simp [stl_rotate_x, hN, mapFirst_zero, stl_get_size, calculate_normals]
  · simp [stl_rotate_y, hN, mapFirst_zero, stl_get_size, calculate_normals]
  · simp [stl_rotate_z, hN, mapFirst_zero, stl_get_size, calculate_normals]
  · simp [stl_transform34, hN, mapFirst_zero, stl_get_size, calculate_normals]
  · simp [stl_transform_affine, hN]

/-- C9 witness: the stale-bounds theorem applied to a concrete empty
error-free mesh. -/
theorem c9_witness :
    okEmptyMesh.error = false ∧ okEmptyMesh.stats.number_of_facets = 0 ∧
    (stl_get_size (fun _ => 7) okEmptyMesh = okEmptyMesh ∧
      stl_rotate_x (fun _ => 7) 0 1 okEmptyMesh = okEmptyMesh ∧
      stl_rotate_y (fun _ => 7) 0 1 okEmptyMesh = okEmptyMesh ∧
      stl_rotate_z (fun _ => 7) 0 1 okEmptyMesh = okEmptyMesh ∧
      stl_transform34 (fun _ => 7) (fun _ => 2) okEmptyMesh = okEmptyMesh ∧
      stl_transform_affine (fun _ => 7) (fun _ => 2) okEmptyMesh = okEmptyMesh) :=
  ⟨rfl, rfl, c9_empty_mesh_keeps_stale_bounds (fun _ => 7) 0 1 (fun _ => 2)
    okEmptyMesh rfl rfl⟩

/-- C7: on an error-free mesh, `stl_scale_versor` multiplies the stored
volume by `s.x * s.y * s.z` exactly when it is positive and leaves it
untouched otherwise, while min, max, size, and every vertex of every
facet are scaled componentwise in all cases. -/
theorem c7_scale_versor_volume_guard (s : Vec) (m : Mesh)
    (herr : m.error = false) :
    (0 < m.stats.volume →
      (stl_scale_versor s m).stats.volume
        = m.stats.volume * (s.x * s.y * s.z)) ∧
    (¬ 0 < m.stats.volume →
      (stl_scale_versor s m).stats.volume = m.stats.volume) ∧
    (stl_scale_versor s m).stats.min = Vec.cmul m.stats.min s ∧
    (stl_scale_versor s m).stats.max = Vec.cmul m.stats.max s ∧
    (stl_scale_versor s m).stats.size = Vec.cmul m.stats.size s ∧
    ∀ i, i < m.stats.number_of_facets → i < m.facets.length →
      (stl_scale_versor s m).facets.getD i dFacet
        = Facet.mapVertices (fun v => Vec.cmul v s) (m.facets.getD i dFacet) := by
  refine ⟨?_, ?_, ?_, ?_, ?_, ?_⟩
  · intro hv; simp [stl_scale_versor, herr, hv]
  · intro hv; simp [stl_scale_versor, herr, hv]
  · simp [stl_scale_versor, herr]
  · simp [stl_scale_versor, herr]
  · simp [stl_scale_versor, herr]
  · intro i hiN hil
    simp only [stl_scale_versor, herr, Bool.false_eq_true, if_false]
    exact mapFirst_getD _ _ _ _ _ hiN hil

/-- A one-facet mesh with a positive stored volume, used as the C7
witness input. -/
def scaleMesh : Mesh :=
  ⟨[⟨⟨0, 0, 0⟩, ⟨1, 0, 0⟩, ⟨0, 1, 0⟩, ⟨0, 0, 1⟩⟩], [dTriple],
   { emptyStats with number_of_facets := 1, volume := 2 }, false⟩

/-- C7 witness: the scale theorem applied to a concrete one-facet mesh
with positive volume and versor `(2, 3, 4)`. -/
theorem c7_witness :
    scaleMesh.error = false ∧
    ((0 < scaleMesh.stats.volume →
      (stl_scale_versor ⟨2, 3, 4⟩ scaleMesh).stats.volume
        = scaleMesh.stats.volume * (2 * 3 * 4)) ∧
    (¬ 0 < scaleMesh.stats.volume →
      (stl_scale_versor ⟨2, 3, 4⟩ scaleMesh).stats.volume
        = scaleMesh.stats.volume) ∧
    (stl_scale_versor ⟨2, 3, 4⟩ scaleMesh).stats.min
      = Vec.cmul scaleMesh.stats.min ⟨2, 3, 4⟩ ∧
    (stl_scale_versor ⟨2, 3, 4⟩ scaleMesh).stats.max
      = Vec.cmul scaleMesh.stats.max ⟨2, 3, 4⟩ ∧
    (stl_scale_versor ⟨2, 3, 4⟩ scaleMesh).stats.size
      = Vec.cmul scaleMesh.stats.size ⟨2, 3, 4⟩ ∧
    ∀ i, i < scaleMesh.stats.number_of_facets → i < scaleMesh.facets.length →
      (stl_scale_versor ⟨2, 3, 4⟩ scaleMesh).facets.getD i dFacet
        = Facet.mapVertices (fun v => Vec.cmul v ⟨2, 3, 4⟩)
            (scaleMesh.facets.getD i dFacet)) :=
  ⟨rfl, c7_scale_versor_volume_guard ⟨2, 3, 4⟩ scaleMesh rfl⟩

/-- C4 (amended): `get_area` equals half the dot product of the sum of
the three cross products of consecutive vertex positions with the normal
recomputed from the facet's vertices and re-normalized — for every
facet, regardless of the stored normal, which `get_area` never reads. -/
theorem c4_area_uses_recomputed_normal (f : Facet) :
    get_area f = areaSpecRecomputedNormal f := by
  simp only [get_area, areaSpecRecomputedNormal]
  generalize stl_normalize_vector (stl_calculate_normal f) = n
  obtain ⟨v0, v1, v2, nrm⟩ := f
  obtain ⟨a, b, c⟩ := v0
  obtain ⟨d, e, g⟩ := v1
  obtain ⟨h, i, j⟩ := v2
  obtain ⟨nx, ny, nz⟩ := n
  norm_num [Facet.vertex, Vec.cross, Vec.dot]

/-- A facet lying in the z = 0 plane whose stored normal points the
wrong way (downward), while the winding implies the upward normal. -/
def c4Facet : Facet := ⟨⟨0, 0, 0⟩, ⟨1, 0, 0⟩, ⟨0, 1, 0⟩, ⟨0, 0, -1⟩⟩

theorem natSqrt_one : natSqrt 1 = 1 := by decide

/-- The recomputed, re-normalized normal of `c4Facet` points up. -/
theorem c4Facet_recomputed_normal :
    stl_normalize_vector (stl_calculate_normal c4Facet) = ⟨0, 0, 1⟩ := by
  have h1 : stl_calculate_normal c4Facet = ⟨0, 0, 1⟩ := by
    norm_num [stl_calculate_normal, c4Facet, Vec.cross]
  rw [h1]
  norm_num [stl_normalize_vector, Vec.normSq, ratSqrt, Vec.smul, natSqrt_one]

/-- The stored normal of `c4Facet` is already unit length and survives
re-normalization pointing down. -/
theorem c4Facet_stored_normal :
    stl_normalize_vector c4Facet.normal = ⟨0, 0, -1⟩ := by
  have h1 : c4Facet.normal = ⟨0, 0, -1⟩ := rfl
  rw [h1]
  norm_num [stl_normalize_vector, Vec.normSq, ratSqrt, Vec.smul, natSqrt_one]

/-- C4 counterexample: on `c4Facet`, `get_area` returns `1/2` (it uses
the normal recomputed from the vertices, `(0, 0, 1)`), while the spec's
formula built on the facet's own stored re-normalized normal returns
`-1/2`; the claim's equality fails at this concrete facet. -/
theorem c4_counterexample :
    get_area c4Facet = 1 / 2 ∧ areaSpecStoredNormal c4Facet = -(1 / 2) ∧
      get_area c4Facet ≠ areaSpecStoredNormal c4Facet := by
  have h1 : get_area c4Facet = 1 / 2 := by
    simp only [get_area]
    rw [c4Facet_recomputed_normal]
    norm_num [c4Facet, Facet.vertex, Vec.cross, Vec.dot]
  have h2 : areaSpecStoredNormal c4Facet = -(1 / 2) := by
    simp only [areaSpecStoredNormal]
    rw [c4Facet_stored_normal]
    norm_num [c4Facet, Facet.vertex, Vec.cross, Vec.dot]
  exact ⟨h1, h2, by rw [h1, h2]; norm_num⟩

theorem mirror_roundtrip_facets (negc : Vec → Vec)
    (hneg : ∀ v, negc (negc v) = v) (n : Nat) (l : List Facet) :
    mapFirst (fun f => ⟨f.v1, f.v0, f.v2, -f.normal⟩) n
      (mapFirst (Facet.mapVertices negc) n
        (mapFirst (fun f => ⟨f.v1, f.v0, f.v2, -f.normal⟩) n
          (mapFirst (Facet.mapVertices negc) n l))) = l := by
  rw [mapFirst_comp, mapFirst_comp, mapFirst_comp]
  apply mapFirst_eq_self
  intro f
  obtain ⟨a, b, c, d⟩ := f
  simp [Facet.mapVertices, hneg]

theorem stl_mirror_xy_mk (fac : List Facet) (nb : List NeighborTriple)
    (st : MeshStats) :
    stl_mirror_xy ⟨fac, nb, st, false⟩ =
      ⟨mapFirst (fun f => ⟨f.v1, f.v0, f.v2, -f.normal⟩) st.number_of_facets
          (mapFirst (Facet.mapVertices (fun v => { v with z := -v.z }))
            st.number_of_facets fac),
       nb,
       { st with
         min := { st.min with z := -st.max.z },
         max := { st.max with z := -st.min.z },
         facets_reversed :=
           st.facets_reversed + (st.number_of_facets : ℤ)
             - (st.number_of_facets : ℤ) },
       false⟩ := rfl

theorem stl_mirror_yz_mk (fac : List Facet) (nb : List NeighborTriple)
    (st : MeshStats) :
    stl_mirror_yz ⟨fac, nb, st, false⟩ =
      ⟨mapFirst (fun f => ⟨f.v1, f.v0, f.v2, -f.normal⟩) st.number_of_facets
          (mapFirst (Facet.mapVertices (fun v => { v with x := -v.x }))
            st.number_of_facets fac),
       nb,
       { st with
         min := { st.min with x := -st.max.x },
         max := { st.max with x := -st.min.x },
         facets_reversed :=
           st.facets_reversed + (st.number_of_facets : ℤ)
             - (st.number_of_facets : ℤ) },
       false⟩ := rfl

theorem stl_mirror_xz_mk (fac : List Facet) (nb : List NeighborTriple)
    (st : MeshStats) :
    stl_mirror_xz ⟨fac, nb, st, false⟩ =
      ⟨mapFirst (fun f => ⟨f.v1, f.v0, f.v2, -f.normal⟩) st.number_of_facets
          (mapFirst (Facet.mapVertices (fun v => { v with y := -v.y }))
            st.number_of_facets fac),
       nb,
       { st with
         min := { st.min with y := -st.max.y },
         max := { st.max with y := -st.min.y },
         facets_reversed :=
           st.facets_reversed + (st.number_of_facets : ℤ)
             - (st.number_of_facets : ℤ) },
       false⟩ := rfl

/-- C8: on an error-free mesh, mirroring across the same plane twice is
the identity on everything — vertex positions, winding, normals, the
extrema, and the facets-reversed statistic (each mirror's reversal is
compensated by the decrement by the facet count) — for each of the three
mirror planes. -/
theorem c8_mirror_twice_identity (m : Mesh) (herr : m.error = false) :
    stl_mirror_xy (stl_mirror_xy m) = m ∧ stl_mirror_yz (stl_mirror_yz m) = m ∧
      stl_mirror_xz (stl_mirror_xz m) = m := by
  obtain ⟨fac, nb, st, err⟩ := m
  simp only at herr
  subst herr
  refine ⟨?_, ?_, ?_⟩
  · rw [stl_mirror_xy_mk, stl_mirror_xy_mk]
    simp [Mesh.mk.injEq]
    exact mirror_roundtrip_facets (fun v => { v with z := -v.z })
      (fun v => by cases v; simp) _ _
  · rw [stl_mirror_yz_mk, stl_mirror_yz_mk]
    simp [Mesh.mk.injEq]
    exact mirror_roundtrip_facets (fun v => { v with x := -v.x })
      (fun v => by cases v; simp) _ _
  · rw [stl_mirror_xz_mk, stl_mirror_xz_mk]
    simp [Mesh.mk.injEq]
    exact mirror_roundtrip_facets (fun v => { v with y := -v.y })
      (fun v => by cases v; simp) _ _

/-- C8 witness: the double-mirror theorem applied to a concrete
error-free one-facet mesh. -/
theorem c8_witness :
    scaleMesh.error = false ∧
    (stl_mirror_xy (stl_mirror_xy scaleMesh) = scaleMesh ∧
      stl_mirror_yz (stl_mirror_yz scaleMesh) = scaleMesh ∧
      stl_mirror_xz (stl_mirror_xz scaleMesh) = scaleMesh) :=
  ⟨rfl, c8_mirror_twice_identity scaleMesh rfl⟩

theorem flatMap_range_nil {α : Type} (n : Nat) (f : Nat → List α)
    (h : ∀ k, k < n → f k = []) : (List.range n).flatMap f = [] := by
  induction n with
  | zero => rfl
  | succ n ih =>
    rw [List.range_succ, List.flatMap_append, ih (fun k hk => h k (by omega))]
    simp [h n (by omega)]

theorem flatMap_range_single {α : Type} :
    ∀ (n k0 : Nat) (f : Nat → List α), k0 < n →
      (∀ k, k < n → k ≠ k0 → f k = []) → (List.range n).flatMap f = f k0
  | 0, k0, f, hk, h => by omega
  | n + 1, k0, f, hk, h => by
    rw [List.range_succ, List.flatMap_append]
    by_cases hkn : k0 = n
    · rw [flatMap_range_nil n f (fun k hk1 => h k (by omega) (by omega)), hkn]
      simp
    · rw [flatMap_range_single n k0 f (by omega)
        (fun k hk1 hne => h k (by omega) hne)]
      have hfn : f n = [] := h n (by omega) (fun hEq => hkn hEq.symm)
      simp [hfn]

theorem sum_map_range_zero (n : Nat) (f : Nat → Nat)
    (h : ∀ k, k < n → f k = 0) : ((List.range n).map f).sum = 0 := by
  induction n with
  | zero => rfl
  | succ n ih =>
    rw [List.range_succ, List.map_append, List.sum_append,
      ih (fun k hk => h k (by omega))]
    simp [h n (by omega)]

theorem sum_map_range_single :
    ∀ (n k0 : Nat) (f : Nat → Nat), k0 < n →
      (∀ k, k < n → k ≠ k0 → f k = 0) → ((List.range n).map f).sum = f k0
  | 0, k0, f, hk, h => by omega
  | n + 1, k0, f, hk, h => by
    rw [List.range_succ, List.map_append, List.sum_append]
    by_cases hkn : k0 = n
    · rw [sum_map_range_zero n f (fun k hk1 => h k (by omega) (by omega)), hkn]
      simp
    · rw [sum_map_range_single n k0 f (by omega)
        (fun k hk1 hne => h k (by omega) hne)]
      have hfn : f n = 0 := h n (by omega) (fun hEq => hkn hEq.symm)
      simp [hfn]

theorem list_sum_range_eq (n : Nat) (f : Nat → Nat) :
    ((List.range n).map f).sum = ∑ k in Finset.range n, f k := by
  induction n with
  | zero => rfl
  | succ n ih =>
    rw [List.range_succ, Finset.sum_range_succ, List.map_append,
      List.sum_append, ih]
    simp

/-- A clean facet/edge pair contributes nothing: no backwards-edge
increment and no report. -/
theorem pairCheck_of_cleanPair (m : Mesh) (i j : Nat)
    (h : cleanPair m i j) : pairCheck m i j = (0, []) := by
  rcases h with h | ⟨h1, h2, h3⟩
  · simp only [pairCheck]
    rw [if_pos h]
  · simp only [pairCheck]
    by_cases hn : ((m.neighbors.getD i dTriple).edge j).nbr = -1
    · rw [if_pos hn]
    · have hcond :
          ¬((m.facets.getD i dFacet).vertex j ≠
              (m.facets.getD ((m.neighbors.getD i dTriple).edge j).nbr.toNat
                dFacet).vertex
                ((((m.neighbors.getD i dTriple).edge j).vnot + 2) % 3) ∨
            (m.facets.getD i dFacet).vertex ((j + 1) % 3) ≠
              (m.facets.getD ((m.neighbors.getD i dTriple).edge j).nbr.toNat
                dFacet).vertex
                ((((m.neighbors.getD i dTriple).edge j).vnot + 1) % 3)) := by
        push_neg
        exact ⟨h2, h3⟩
      rw [if_neg hn, if_pos h1, if_neg hcond]

/-- A forward-corrupted pair contributes exactly one backwards-edge
increment and exactly the mismatch report naming both facets. -/
theorem pairCheck_of_corruptedPair (m : Mesh) (i j : Nat)
    (h : corruptedPair m i j) :
    pairCheck m i j =
      (1, [⟨j, i, ((m.neighbors.getD i dTriple).edge j).vnot + 1,
            ((m.neighbors.getD i dTriple).edge j).nbr⟩]) := by
  obtain ⟨hn, hv, h2, h3, hne⟩ := h
  have hv3 : ¬ ((m.neighbors.getD i dTriple).edge j).vnot < 3 := by omega
  have hcond :
      (m.facets.getD i dFacet).vertex j ≠
        (m.facets.getD ((m.neighbors.getD i dTriple).edge j).nbr.toNat
          dFacet).vertex ((((m.neighbors.getD i dTriple).edge j).vnot + 1) % 3) :=
    fun hEq => hne (hEq.trans h3.symm)
  simp only [pairCheck]
  rw [if_neg hn, if_neg hv3, if_pos (Or.inl hcond)]

/-- C1: on an error-free mesh in which exactly one facet/edge pair has
its neighbor entry corrupted to the forward orientation (offset `>= 3`
while the geometry still matches in the expected reversed direction on a
non-degenerate edge) and every other pair is clean, `stl_verify_neighbors`
reports exactly one mismatch — naming edge `j0` of facet `i0` and the
neighbor facet — and ends with the backwards-edge counter at exactly 1. -/
theorem c1_single_corrupted_entry (m : Mesh) (i0 j0 : Nat)
    (herr : m.error = false)
    (hi0 : i0 < m.stats.number_of_facets) (hj0 : j0 < 3)
    (hbad : corruptedPair m i0 j0)
    (hclean : ∀ i ∈ List.range m.stats.number_of_facets,
      ∀ j ∈ List.range 3, ¬(i = i0 ∧ j = j0) → cleanPair m i j) :
    (stl_verify_neighbors m).2 =
      [⟨j0, i0, ((m.neighbors.getD i0 dTriple).edge j0).vnot + 1,
        ((m.neighbors.getD i0 dTriple).edge j0).nbr⟩] ∧
    (stl_verify_neighbors m).1.stats.backwards_edges = 1 := by
  have hz : ∀ i j, i < m.stats.number_of_facets → j < 3 → ¬(i = i0 ∧ j = j0) →
      pairCheck m i j = (0, []) := fun i j hi hj hne =>
    pairCheck_of_cleanPair m i j
      (hclean i (List.mem_range.mpr hi) j (List.mem_range.mpr hj) hne)
  have hkey := pairCheck_of_corruptedPair m i0 j0 hbad
  have hv : stl_verify_neighbors m =
      ({ m with stats := { m.stats with backwards_edges := verifyBackwards m } },
        verifyReports m) := by
    simp [stl_verify_neighbors, herr]
  constructor
  · rw [hv]
    show verifyReports m = _
    rw [verifyReports]
    rw [flatMap_range_single m.stats.number_of_facets i0 _ hi0 ?hout]
    case hout =>
      intro i hi hne
      apply flatMap_range_nil
      intro j hj
      rw [hz i j hi hj (fun hc => hne hc.1)]
    rw [flatMap_range_single 3 j0 _ hj0 ?hin]
    case hin =>
      intro j hj hne
      rw [hz i0 j hi0 hj (fun hc => hne hc.2)]
    rw [hkey]
  · rw [hv]
    show verifyBackwards m = 1
    rw [verifyBackwards]
    rw [sum_map_range_single m.stats.number_of_facets i0 _ hi0 ?hout2]
    case hout2 =>
      intro i hi hne
      apply sum_map_range_zero
      intro j hj
      rw [hz i j hi hj (fun hc => hne hc.1)]
    rw [sum_map_range_single 3 j0 _ hj0 ?hin2]
    case hin2 =>
      intro j hj hne
      rw [hz i0 j hi0 hj (fun hc => hne hc.2)]
    rw [hkey]

/-- A two-facet mesh sharing one properly reverse-matched edge, with the
neighbor entry of facet 0 edge 0 corrupted from offset 2 to the forward
sentinel 5; the mirrored entry on facet 1 is intact. -/
def c1Mesh : Mesh :=
  ⟨[⟨⟨0, 0, 0⟩, ⟨1, 0, 0⟩, ⟨0, 1, 0⟩, ⟨0, 0, 1⟩⟩,
    ⟨⟨1, 0, 0⟩, ⟨0, 0, 0⟩, ⟨0, 0, 1⟩, ⟨0, 0, -1⟩⟩],
   [⟨⟨1, 5⟩, ⟨-1, 0⟩, ⟨-1, 0⟩⟩, ⟨⟨0, 2⟩, ⟨-1, 0⟩, ⟨-1, 0⟩⟩],
   { emptyStats with number_of_facets := 2 }, false⟩

/-- C1 witness: the single-corruption theorem applied to the concrete
two-facet mesh `c1Mesh`, whose hypotheses are checked by evaluation. -/
theorem c1_witness :
    c1Mesh.error = false ∧ 0 < c1Mesh.stats.number_of_facets ∧ (0 : Nat) < 3 ∧
    corruptedPair c1Mesh 0 0 ∧
    (∀ i ∈ List.range c1Mesh.stats.number_of_facets,
      ∀ j ∈ List.range 3, ¬(i = 0 ∧ j = 0) → cleanPair c1Mesh i j) ∧
    ((stl_verify_neighbors c1Mesh).2 =
      [⟨0, 0, ((c1Mesh.neighbors.getD 0 dTriple).edge 0).vnot + 1,
        ((c1Mesh.neighbors.getD 0 dTriple).edge 0).nbr⟩] ∧
      (stl_verify_neighbors c1Mesh).1.stats.backwards_edges = 1) := by
  have hbad : corruptedPair c1Mesh 0 0 := by decide
  have hclean : ∀ i ∈ List.range c1Mesh.stats.number_of_facets,
      ∀ j ∈ List.range 3, ¬(i = 0 ∧ j = 0) → cleanPair c1Mesh i j := by decide
  exact ⟨rfl, by decide, by decide, hbad, hclean,
    c1_single_corrupted_entry c1Mesh 0 0 rfl (by decide) (by decide) hbad hclean⟩

/-- The backwards-edge increment of a pair depends only on the neighbor
entry being present with offset `>= 3`; the code increments before the
edge comparison, so the increment is the same whether or not the
comparison reports a mismatch. -/
theorem pairCheck_fst (m : Mesh) (i j : Nat) :
    (pairCheck m i j).1 =
      if ((m.neighbors.getD i dTriple).edge j).nbr ≠ -1
          ∧ 3 ≤ ((m.neighbors.getD i dTriple).edge j).vnot then 1 else 0 := by
  simp only [pairCheck]
  by_cases hn : ((m.neighbors.getD i dTriple).edge j).nbr = -1
  · rw [if_pos hn,
      if_neg (show ¬(((m.neighbors.getD i dTriple).edge j).nbr ≠ -1
        ∧ 3 ≤ ((m.neighbors.getD i dTriple).edge j).vnot) from
          fun hc => hc.1 hn)]
  · by_cases hv : ((m.neighbors.getD i dTriple).edge j).vnot < 3
    · rw [if_neg hn, if_pos hv,
        if_neg (show ¬(((m.neighbors.getD i dTriple).edge j).nbr ≠ -1
          ∧ 3 ≤ ((m.neighbors.getD i dTriple).edge j).vnot) from
            fun hc => absurd hc.2 (by omega))]
      split <;> rfl
    · rw [if_neg hn, if_neg hv,
        if_pos (show ((m.neighbors.getD i dTriple).edge j).nbr ≠ -1
          ∧ 3 ≤ ((m.neighbors.getD i dTriple).edge j).vnot from
            ⟨hn, by omega⟩)]
      split <;> rfl

/-- C10: after `stl_verify_neighbors` on an error-free mesh, the
backwards-edge counter equals exactly the number of (facet, edge) pairs
whose neighbor entry is present with shared-vertex offset at least 3 —
independent of whether the subsequent edge comparison succeeds. -/
theorem c10_backwards_counts_forward_offsets (m : Mesh)
    (herr : m.error = false) :
    (stl_verify_neighbors m).1.stats.backwards_edges =
      ((Finset.range m.stats.number_of_facets ×ˢ Finset.range 3).filter
        (fun p => ((m.neighbors.getD p.1 dTriple).edge p.2).nbr ≠ -1
          ∧ 3 ≤ ((m.neighbors.getD p.1 dTriple).edge p.2).vnot)).card := by
  have hv : (stl_verify_neighbors m).1.stats.backwards_edges
      = verifyBackwards m := by
    simp [stl_verify_neighbors, herr]
  rw [hv, verifyBackwards, Finset.card_filter, Finset.sum_product,
    list_sum_range_eq]
  apply Finset.sum_congr rfl
  intro i _
  rw [list_sum_range_eq]
  apply Finset.sum_congr rfl
  intro j _
  rw [pairCheck_fst]

/-- C10 witness: the counting theorem applied to the concrete corrupted
mesh `c1Mesh`, where the counter and the count both evaluate to 1. -/
theorem c10_witness :
    c1Mesh.error = false ∧
    (stl_verify_neighbors c1Mesh).1.stats.backwards_edges =
      ((Finset.range c1Mesh.stats.number_of_facets ×ˢ Finset.range 3).filter
        (fun p => ((c1Mesh.neighbors.getD p.1 dTriple).edge p.2).nbr ≠ -1
          ∧ 3 ≤ ((c1Mesh.neighbors.getD p.1 dTriple).edge p.2).vnot)).card :=
  ⟨rfl, c10_backwards_counts_forward_offsets c1Mesh rfl⟩

theorem nearbyLoop_length_le (C : Collabs) (inc : ℚ) :
    ∀ (k : Nat) (tol : ℚ) (m : Mesh), (nearbyLoop C inc k tol m).2.length ≤ k
  | 0, tol, m => by simp [nearbyLoop]
  | k + 1, tol, m => by
    simp only [nearbyLoop]
    by_cases hg : m.stats.connected_facets_3_edge
        < (m.stats.number_of_facets : ℤ)
    · rw [if_pos hg]
      simpa using
        nearbyLoop_length_le C inc k (tol + inc) (C.check_facets_nearby tol m)
    · rw [if_neg hg]
      simp

theorem nearbyLoop_getD (C : Collabs) (inc : ℚ) :
    ∀ (k : Nat) (tol : ℚ) (m : Mesh) (a : Nat),
      a < (nearbyLoop C inc k tol m).2.length →
      (nearbyLoop C inc k tol m).2.getD a 0 = tol + (a : ℚ) * inc
  | 0, tol, m, a, ha => by simp [nearbyLoop] at ha
  | k + 1, tol, m, a, ha => by
    simp only [nearbyLoop] at ha ⊢
    by_cases hg : m.stats.connected_facets_3_edge
        < (m.stats.number_of_facets : ℤ)
    · rw [if_pos hg] at ha ⊢
      cases a with
      | zero => simp
      | succ a =>
        have hrec := nearbyLoop_getD C inc k (tol + inc)
          (C.check_facets_nearby tol m) a (by simpa using ha)
        simp only [List.getD_cons_succ, hrec]
        push_cast
        ring
    · rw [if_neg hg] at ha
      simp at ha
  termination_by k _ _ _ _ => k

theorem stitchIter_shift (C : Collabs) (inc : ℚ) :
    ∀ (j : Nat) (tol : ℚ) (m : Mesh),
      stitchIter C inc tol m (j + 1)
        = stitchIter C inc (tol + inc) (C.check_facets_nearby tol m) j
  | 0, tol, m => by simp [stitchIter]
  | j + 1, tol, m => by
    have h1 : stitchIter C inc tol m (j + 1 + 1)
        = C.check_facets_nearby (tol + ((j + 1 : Nat) : ℚ) * inc)
            (stitchIter C inc tol m (j + 1)) := rfl
    have h2 : stitchIter C inc (tol + inc) (C.check_facets_nearby tol m) (j + 1)
        = C.check_facets_nearby ((tol + inc) + (j : ℚ) * inc)
            (stitchIter C inc (tol + inc) (C.check_facets_nearby tol m) j) := rfl
    rw [h1, h2, stitchIter_shift C inc j tol m]
    congr 1
    push_cast
    ring

theorem nearbyLoop_early (C : Collabs) (inc : ℚ) :
    ∀ (k : Nat) (tol : ℚ) (m : Mesh),
      (∃ a, a < k ∧
        ¬ ((stitchIter C inc tol m a).stats.connected_facets_3_edge
          < ((stitchIter C inc tol m a).stats.number_of_facets : ℤ))) →
      (nearbyLoop C inc k tol m).2.length < k
  | 0, tol, m, h => by
    obtain ⟨a, ha, _⟩ := h
    omega
  | k + 1, tol, m, h => by
    obtain ⟨a, ha, hfull⟩ := h
    simp only [nearbyLoop]
    by_cases hg : m.stats.connected_facets_3_edge
        < (m.stats.number_of_facets : ℤ)
    · rw [if_pos hg]
      cases a with
      | zero => exact absurd hg (by simpa [stitchIter] using hfull)
      | succ a =>
        have hrec := nearbyLoop_early C inc k (tol + inc)
          (C.check_facets_nearby tol m)
          ⟨a, by omega, by rw [← stitchIter_shift]; exact hfull⟩
        simpa using hrec
    · rw [if_neg hg]
      simp
  termination_by k _ _ _ => k

/-- C5: in the nearby-tolerance stage of `stl_repair` (entered whenever
the nearby or fix-all flag is set), the starting tolerance defaults to
the post-exactness-stage `stats.shortest_edge` when the tolerance
override is absent and the increment defaults to
`stats.bounding_diameter / 10000` when the increment override is absent;
the stitch collaborator is invoked at most `iterations` times, the a-th
invocation receiving tolerance `tol0 + a * inc0`; and whenever full
3-edge connectivity is reached after fewer stitch applications than the
requested iteration count, the loop stops early with strictly fewer
invocations than requested. -/
theorem c5_nearby_stage_tolerances (Cb : Collabs) (m : Mesh)
    (fixall_flag exact_flag tolerance_flag : Bool) (tolerance : ℚ)
    (increment_flag : Bool) (increment : ℚ)
    (nearby_flag : Bool) (iterations : Nat)
    (remove_unconnected_flag fill_holes_flag : Bool)
    (normal_directions_flag normal_values_flag reverse_all_flag : Bool)
    (herr : m.error = false)
    (hstage : (nearby_flag || fixall_flag) = true) :
    (stl_repair Cb fixall_flag exact_flag tolerance_flag tolerance
        increment_flag increment nearby_flag iterations
        remove_unconnected_flag fill_holes_flag normal_directions_flag
        normal_values_flag reverse_all_flag m).nearbyTolerances.length
      ≤ iterations ∧
    (∀ a, a < (stl_repair Cb fixall_flag exact_flag tolerance_flag tolerance
        increment_flag increment nearby_flag iterations
        remove_unconnected_flag fill_holes_flag normal_directions_flag
        normal_values_flag reverse_all_flag m).nearbyTolerances.length →
      (stl_repair Cb fixall_flag exact_flag tolerance_flag tolerance
        increment_flag increment nearby_flag iterations
        remove_unconnected_flag fill_holes_flag normal_directions_flag
        normal_values_flag reverse_all_flag m).nearbyTolerances.getD a 0
        = (if tolerance_flag then tolerance
            else (repairExactStage Cb m).stats.shortest_edge)
          + (a : ℚ) * (if increment_flag then increment
            else (repairExactStage Cb m).stats.bounding_diameter / 10000)) ∧
    ((∃ a, a < iterations ∧
        ¬ ((stitchIter Cb
            (if increment_flag then increment
              else (repairExactStage Cb m).stats.bounding_diameter / 10000)
            (if tolerance_flag then tolerance
              else (repairExactStage Cb m).stats.shortest_edge)
            (repairExactStage Cb m) a).stats.connected_facets_3_edge
          < ((stitchIter Cb
            (if increment_flag then increment
              else (repairExactStage Cb m).stats.bounding_diameter / 10000)
            (if tolerance_flag then tolerance
              else (repairExactStage Cb m).stats.shortest_edge)
            (repairExactStage Cb m) a).stats.number_of_facets : ℤ))) →
      (stl_repair Cb fixall_flag exact_flag tolerance_flag tolerance
        increment_flag increment nearby_flag iterations
        remove_unconnected_flag fill_holes_flag normal_directions_flag
        normal_values_flag reverse_all_flag m).nearbyTolerances.length
        < iterations) := by
  have hs1 : (exact_flag || fixall_flag || nearby_flag
      || remove_unconnected_flag || fill_holes_flag
      || normal_directions_flag) = true := by
    rcases Bool.or_eq_true_iff.mp hstage with h | h <;> simp [h]
  have hr : (stl_repair Cb fixall_flag exact_flag tolerance_flag tolerance
      increment_flag increment nearby_flag iterations
      remove_unconnected_flag fill_holes_flag normal_directions_flag
      normal_values_flag reverse_all_flag m).nearbyTolerances =
      (if (repairExactStage Cb m).stats.connected_facets_3_edge
          < ((repairExactStage Cb m).stats.number_of_facets : ℤ)
        then nearbyLoop Cb
          (if increment_flag then increment
            else (repairExactStage Cb m).stats.bounding_diameter / 10000)
          iterations
          (if tolerance_flag then tolerance
            else (repairExactStage Cb m).stats.shortest_edge)
          (repairExactStage Cb m)
        else ((repairExactStage Cb m), [])).2 := by
    simp only [stl_repair, herr, hs1, hstage, Bool.false_eq_true, if_false,
      if_true]
  by_cases hg : (repairExactStage Cb m).stats.connected_facets_3_edge
      < ((repairExactStage Cb m).stats.number_of_facets : ℤ)
  · rw [hr, if_pos hg]
    refine ⟨nearbyLoop_length_le Cb _ iterations _ _, ?_, ?_⟩
    · intro a ha
      exact nearbyLoop_getD Cb _ iterations _ _ a ha
    · intro hex
      exact nearbyLoop_early Cb _ iterations _ _ hex
  · rw [hr, if_neg hg]
    refine ⟨by simp, by simp, ?_⟩
    intro hex
    obtain ⟨a, ha, _⟩ := hex
    simp only [List.length_nil]
    omega

/-- C5 witness: the nearby-stage theorem applied to a concrete run —
identity collaborators, an empty error-free mesh (already fully
connected, since 0 < 0 fails), the nearby flag set, one requested
iteration, and both overrides absent.  The early-stop premise holds at
a = 0, so the loop performs zero stitch invocations. -/
theorem c5_witness :
    okEmptyMesh.error = false ∧ ((true || false) = true) ∧
    ((stl_repair idCollabs false false false 0 false 0 true 1
        false false false false false okEmptyMesh).nearbyTolerances.length
      ≤ 1 ∧
    (∀ a, a < (stl_repair idCollabs false false false 0 false 0 true 1
        false false false false false okEmptyMesh).nearbyTolerances.length →
      (stl_repair idCollabs false false false 0 false 0 true 1
        false false false false false okEmptyMesh).nearbyTolerances.getD a 0
        = (if (false : Bool) then 0
            else (repairExactStage idCollabs okEmptyMesh).stats.shortest_edge)
          + (a : ℚ) * (if (false : Bool) then 0
            else (repairExactStage idCollabs
              okEmptyMesh).stats.bounding_diameter / 10000)) ∧
    ((∃ a, a < 1 ∧
        ¬ ((stitchIter idCollabs
            (if (false : Bool) then 0
              else (repairExactStage idCollabs
                okEmptyMesh).stats.bounding_diameter / 10000)
            (if (false : Bool) then 0
              else (repairExactStage idCollabs okEmptyMesh).stats.shortest_edge)
            (repairExactStage idCollabs okEmptyMesh) a).stats.connected_facets_3_edge
          < ((stitchIter idCollabs
            (if (false : Bool) then 0
              else (repairExactStage idCollabs
                okEmptyMesh).stats.bounding_diameter / 10000)
            (if (false : Bool) then 0
              else (repairExactStage idCollabs okEmptyMesh).stats.shortest_edge)
            (repairExactStage idCollabs okEmptyMesh) a).stats.number_of_facets
              : ℤ))) →
      (stl_repair idCollabs false false false 0 false 0 true 1
        false false false false false okEmptyMesh).nearbyTolerances.length
        < 1)) :=
  ⟨rfl, rfl, c5_nearby_stage_tolerances idCollabs okEmptyMesh
    false false false 0 false 0 true 1 false false false false false rfl rfl⟩

theorem mem_ite_singleton {α : Type} (c : Prop) [Decidable c] (a b : α) :
    (a ∈ if c then [b] else []) ↔ c ∧ a = b := by
  split
  · simp_all
  · simp_all

/-- C6: for every flag combination on an error-free mesh, setting the
fix-all flag forces the orchestrator to enter the exactness pass, the
nearby stage, unconnected removal, hole filling, normal-direction
propagation and normal-value recomputation, while the global-reversal
stage is entered exactly when the reverse-all flag itself is set —
fix-all alone never triggers it. -/
theorem c6_fixall_forces_stages (Cb : Collabs) (m : Mesh)
    (fixall_flag exact_flag tolerance_flag : Bool) (tolerance : ℚ)
    (increment_flag : Bool) (increment : ℚ)
    (nearby_flag : Bool) (iterations : Nat)
    (remove_unconnected_flag fill_holes_flag : Bool)
    (normal_directions_flag normal_values_flag reverse_all_flag : Bool)
    (herr : m.error = false) :
    (fixall_flag = true →
      Stage.exact ∈ (stl_repair Cb fixall_flag exact_flag tolerance_flag
        tolerance increment_flag increment nearby_flag iterations
        remove_unconnected_flag fill_holes_flag normal_directions_flag
        normal_values_flag reverse_all_flag m).stages ∧
      Stage.nearby ∈ (stl_repair Cb fixall_flag exact_flag tolerance_flag
        tolerance increment_flag increment nearby_flag iterations
        remove_unconnected_flag fill_holes_flag normal_directions_flag
        normal_values_flag reverse_all_flag m).stages ∧
      Stage.remove_unconnected ∈ (stl_repair Cb fixall_flag exact_flag
        tolerance_flag tolerance increment_flag increment nearby_flag
        iterations remove_unconnected_flag fill_holes_flag
        normal_directions_flag normal_values_flag reverse_all_flag m).stages ∧
      Stage.fill_holes ∈ (stl_repair Cb fixall_flag exact_flag tolerance_flag
        tolerance increment_flag increment nearby_flag iterations
        remove_unconnected_flag fill_holes_flag normal_directions_flag
        normal_values_flag reverse_all_flag m).stages ∧
      Stage.normal_directions ∈ (stl_repair Cb fixall_flag exact_flag
        tolerance_flag tolerance increment_flag increment nearby_flag
        iterations remove_unconnected_flag fill_holes_flag
        normal_directions_flag normal_values_flag reverse_all_flag m).stages ∧
      Stage.normal_values ∈ (stl_repair Cb fixall_flag exact_flag
        tolerance_flag tolerance increment_flag increment nearby_flag
        iterations remove_unconnected_flag fill_holes_flag
        normal_directions_flag normal_values_flag reverse_all_flag m).stages) ∧
    (Stage.reverse ∈ (stl_repair Cb fixall_flag exact_flag tolerance_flag
        tolerance increment_flag increment nearby_flag iterations
        remove_unconnected_flag fill_holes_flag normal_directions_flag
        normal_values_flag reverse_all_flag m).stages
      ↔ reverse_all_flag = true) := by
  have hstages : (stl_repair Cb fixall_flag exact_flag tolerance_flag
      tolerance increment_flag increment nearby_flag iterations
      remove_unconnected_flag fill_holes_flag normal_directions_flag
      normal_values_flag reverse_all_flag m).stages =
      (if (exact_flag || fixall_flag || nearby_flag
          || remove_unconnected_flag || fill_holes_flag
          || normal_directions_flag) = true then [Stage.exact] else [])
        ++ (if (nearby_flag || fixall_flag) = true then [Stage.nearby] else [])
        ++ (if (remove_unconnected_flag || fixall_flag || fill_holes_flag)
              = true then [Stage.remove_unconnected] else [])
        ++ (if (fill_holes_flag || fixall_flag) = true
              then [Stage.fill_holes] else [])
        ++ (if reverse_all_flag = true then [Stage.reverse] else [])
        ++ (if (normal_directions_flag || fixall_flag) = true
              then [Stage.normal_directions] else [])
        ++ (if (normal_values_flag || fixall_flag) = true
              then [Stage.normal_values] else [])
        ++ [Stage.volume]
        ++ (if (if (exact_flag || fixall_flag || nearby_flag
              || remove_unconnected_flag || fill_holes_flag
              || normal_directions_flag) = true then true else exact_flag)
              = true then [Stage.verify] else []) := by
    simp only [stl_repair, herr, Bool.false_eq_true, if_false]
  constructor
  · intro hfix
    rw [hstages]
    simp [List.mem_append, mem_ite_singleton, hfix]
  · rw [hstages]
    simp [List.mem_append, mem_ite_singleton]

/-- C6 witness: the stage-gating theorem applied to a concrete run with
fix-all set and reverse-all clear on an error-free empty mesh. -/
theorem c6_witness :
    okEmptyMesh.error = false ∧
    ((true = true →
      Stage.exact ∈ (stl_repair idCollabs true false false 0 false 0 false 3
        false false false false false okEmptyMesh).stages ∧
      Stage.nearby ∈ (stl_repair idCollabs true false false 0 false 0 false 3
        false false false false false okEmptyMesh).stages ∧
      Stage.remove_unconnected ∈ (stl_repair idCollabs true false false 0
        false 0 false 3 false false false false false okEmptyMesh).stages ∧
      Stage.fill_holes ∈ (stl_repair idCollabs true false false 0 false 0
        false 3 false false false false false okEmptyMesh).stages ∧
      Stage.normal_directions ∈ (stl_repair idCollabs true false false 0
        false 0 false 3 false false false false false okEmptyMesh).stages ∧
      Stage.normal_values ∈ (stl_repair idCollabs true false false 0 false 0
        false 3 false false false false false okEmptyMesh).stages) ∧
    (Stage.reverse ∈ (stl_repair idCollabs true false false 0 false 0 false 3
        false false false false false okEmptyMesh).stages ↔ false = true)) :=
  ⟨rfl, c6_fixall_forces_stages idCollabs okEmptyMesh
    true false false 0 false 0 false 3 false false false false false rfl⟩
